import Mathlib

/-!
Shallow embedding of the `fulgens` CTF checker helper library
(`fulgens.py`: the `Verdict` value type and the `ChallengeHelper`
command-execution / file-transfer facade), together with theorems
settling the specification claims about it.

Modelling conventions:
- Python `bytes` values are modelled as `PyBytes`, a wrapper around a
  string of characters; `str.encode` / `bytes.decode` are the coercions
  between the wrapper and `String`.
- Filesystem paths are raw strings; `pathlib.Path.joinpath` is `pathJoin`
  (an absolute second component replaces the first, as in `pathlib`;
  path normalisation beyond that is not modelled).
- The ambient operating system (local `subprocess.run`, `Path.is_dir`,
  `secrets.token_hex`) is an oracle record `Env`; the optional fabric SSH
  session is an oracle record `SshConn` whose `run` field returns the
  (stdout, stderr, exit status) triple of the remote command, following
  the capability interface the library relies on.
- External side effects (process spawns, remote commands, downloads,
  moves, removals) are recorded in an `Action` trace that each operation
  returns alongside its result.
- Python exceptions are the `Except PyError` monad; the distinct Python
  exception classes raised or documented by the source are the
  constructors of `PyError`.
- Methods that run on a helper object also return the post-call object
  state (`selfAfter`), so that (absence of) attribute mutation is
  expressible; the translated bodies of `run` and `fetch` contain no
  attribute assignment, mirroring the source.
-/

namespace Fulgens

/-- The single-quote character `chr 39`. -/
def sqChar : Char := Char.ofNat 39

/-- The double-quote character `chr 34`. -/
def dqChar : Char := Char.ofNat 34

/-- A one-character string holding a single quote. -/
def sqStr : String := String.singleton sqChar

/-- `bytes` objects: a byte string, carried as its decoded character data.
Distinguishing `bytes` from `str` keeps the Python type structure. -/
structure PyBytes where
  data : String
deriving DecidableEq

/-- `str.encode()`. -/
def strEncode (s : String) : PyBytes := ⟨s⟩

/-- `bytes.decode()`. -/
def PyBytes.decode (b : PyBytes) : String := b.data

/-- The Python exception classes the source raises or documents. -/
inductive PyError where
  | valueError (msg : String)
  | ioError (msg : String)
  | exception (msg : String)
  | attributeError (msg : String)
  | typeError (msg : String)
deriving DecidableEq

/-- Characters `shlex.quote` leaves unquoted: ASCII `\w` plus the
characters `@ % + = : , . /` and the hyphen (the complement of
`_find_unsafe`, compiled with `re.ASCII`). -/
def shlexSafeChar (c : Char) : Bool :=
  (c.isAlpha && c.toNat < 128) || c.isDigit || c = '_' || c = '@' || c = '%' ||
    c = '+' || c = '=' || c = ':' || c = ',' || c = '.' || c = '/' || c = '-'

/-- Per-character effect of `s.replace("'", "'\"'\"'")`: a single quote
becomes the five characters `'"'"'`, anything else is kept. -/
def quoteChar (c : Char) : List Char :=
  if c = sqChar then [sqChar, dqChar, sqChar, dqChar, sqChar] else [c]

/-- `s.replace("'", "'\"'\"'")` over the character list (the pattern is a
single character, so the replacement acts character by character). -/
def quoteRep : List Char → List Char
  | [] => []
  | c :: t => quoteChar c ++ quoteRep t

/-- `shlex.quote(s)`: `''` for the empty string, `s` itself when every
character is safe, otherwise `s` with quotes escaped, wrapped in quotes. -/
def shlexQuote (s : String) : String :=
  if s.data = [] then String.mk [sqChar, sqChar]
  else if s.data.all shlexSafeChar then s
  else String.mk (sqChar :: quoteRep s.data ++ [sqChar])

/-- Lexer mode for reading back one shell word: outside quotes, inside
single quotes, inside double quotes. -/
inductive QMode where
  | norm
  | insq
  | indq
deriving DecidableEq

/-- Read one quoted shell word back to the text the shell would hand to the
command as a single argument.  Outside quotes only `shlex`-safe characters
are accepted (anything else would be a shell metacharacter or a word
break), quotes open quoted spans, and quoted characters are literal.
The double-quoted fragment (used by `shlex.quote` only around a literal
single quote) is treated literally, which covers its output grammar. -/
def unq : QMode → List Char → Option (List Char)
  | .norm, [] => some []
  | .norm, c :: rest =>
      if c = sqChar then unq .insq rest
      else if c = dqChar then unq .indq rest
      else if shlexSafeChar c then Option.map (fun l => c :: l) (unq .norm rest)
      else none
  | .insq, [] => none
  | .insq, c :: rest =>
      if c = sqChar then unq .norm rest
      else Option.map (fun l => c :: l) (unq .insq rest)
  | .indq, [] => none
  | .indq, c :: rest =>
      if c = dqChar then unq .norm rest
      else Option.map (fun l => c :: l) (unq .indq rest)

/-- Read back a full shell word, as a `String` function. -/
def shUnquote (s : String) : Option String :=
  Option.map (fun l => String.mk l) (unq QMode.norm s.data)

/-- `pathlib.Path.joinpath` on raw path strings: an empty component is a
no-op, an absolute component replaces the base, otherwise join with `/`. -/
def pathJoin (base child : String) : String :=
  if child = "" then base
  else if child.data.head? = some '/' then child
  else base ++ "/" ++ child

/-- `os.path.basename` on a POSIX path: the component after the last
slash. -/
def basename (s : String) : String :=
  String.mk ((s.data.reverse.takeWhile (fun c => c != '/')).reverse)

/-- Substring test used for `str.find(sub) != -1`. -/
def strContains (hay needle : String) : Bool :=
  decide (needle.data <:+: hay.data)

/-- Result of `subprocess.run(..., capture_output=True, shell=True)`:
captured stdout and stderr as bytes and the integer return code. -/
structure ExecResult where
  stdout : PyBytes
  stderr : PyBytes
  returncode : Int
deriving DecidableEq

/-- Result of `fabric.Connection.run(cmd, hide=True)`: stdout and stderr
as text, and the exit status. -/
structure SshResult where
  stdout : String
  stderr : String
  exited : Int

/-- The optional remote SSH session, as the capability the library uses:
`run` executes a command remotely and reports (stdout, stderr, exit
status).  The return values of `Connection.get` and `Connection.local`
are never consumed by the source, so those calls appear only in the
action trace. -/
structure SshConn where
  run : String → SshResult

/-- Oracles for the ambient operating system: local `subprocess.run`,
the local `Path(p).is_dir()` check, and the `secrets.token_hex(8)` value
(16 hex digits) drawn during a call. -/
structure Env where
  subprocess : String → ExecResult
  isDir : String → Bool
  tokenHex8 : String

/-- One observable external side effect. -/
inductive Action where
  | subprocessRun (cmd : String)
  | sshRun (cmd : String)
  | sshGet (remote : String) (localPath : String)
  | sshLocal (cmd : String)
  | move (src : String) (dest : String)
  | osRemove (path : String)
deriving DecidableEq

/-- Checker verdict: a status string and a message string
(`Verdict.__init__`). -/
structure Verdict where
  status : String
  message : String
deriving DecidableEq

/-- `Verdict.is_ok`: whether the status equals `"OK"`. -/
def Verdict.is_ok (v : Verdict) : Bool :=
  v.status == "OK"

/-- `Verdict.OK(message="")`: `none` models calling with no argument, in
which case the Python default `""` applies. -/
def Verdict.OK (message : Option String) : Verdict :=
  ⟨"OK", message.getD ""⟩

/-- `Verdict.FAIL(message)`. -/
def Verdict.FAIL (message : String) : Verdict :=
  ⟨"FAIL", message⟩

/-- `Verdict.ERROR(message)`. -/
def Verdict.ERROR (message : String) : Verdict :=
  ⟨"ERROR", message⟩

/-- The `ChallengeHelper` object state after construction.  `services`
holds the keys of the `services` mapping parsed from the Compose file
(membership in the mapping is all the source consults). -/
structure ChallengeHelper where
  addresses : List String
  secret : String
  services : List String
  localChallDir : String
  remoteChallDir : String
  composePath : String
  sshConn : Option SshConn

/-- A constructor argument annotated `str | pathlib.Path`: the dynamic
type tag decides which attributes exist on the value. -/
inductive StrOrPath where
  | str (s : String)
  | path (p : String)
deriving DecidableEq

/-- `x.joinpath(f)` under Python attribute lookup: a `pathlib.Path`
receiver joins, a `str` receiver raises `AttributeError` (no `joinpath`
attribute on `str`). -/
def StrOrPath.joinpath : StrOrPath → String → Except PyError String
  | .str _, _ =>
      Except.error (PyError.attributeError
        (sqStr ++ "str" ++ sqStr ++ " object has no attribute " ++
          sqStr ++ "joinpath" ++ sqStr))
  | .path p, f => Except.ok (pathJoin p f)

/-- `pathlib.Path(x)` on a value that is already a `str` or a `Path`. -/
def StrOrPath.toPathStr : StrOrPath → String
  | .str s => s
  | .path p => p

/-- The filesystem as seen by `open` + `yaml.safe_load` + `["services"]`:
maps the Compose file path to the list of service names parsed from it,
or to the error that reading or parsing raises. -/
structure FileSys where
  composeServices : String → Except PyError (List String)

/-- `ChallengeHelper.__init__`: stores the addresses, session and secret,
reads `local_challenge_dir.joinpath(compose_filename)` (an `AttributeError`
on a `str` directory argument fires here, before any file is read), parses
the services, converts the local directory with `Path(...)`, forces the
remote directory to the local one when no session is given (otherwise
`Path(remote_challenge_dir)`, a `TypeError` on `None`), and forms
`compose_path` from the remote directory and the compose filename. -/
def ChallengeHelper.init (fs : FileSys) (addresses : List String)
    (secret : String) (localChallengeDir : StrOrPath)
    (remoteChallengeDir : Option StrOrPath) (composeFilename : String)
    (sshConn : Option SshConn) : Except PyError ChallengeHelper :=
  match localChallengeDir.joinpath composeFilename with
  | Except.error e => Except.error e
  | Except.ok composeLocalPath =>
    match fs.composeServices composeLocalPath with
    | Except.error e => Except.error e
    | Except.ok services =>
      let localChallDir := localChallengeDir.toPathStr
      let remoteChallDirE : Except PyError String :=
        match sshConn with
        | none => Except.ok localChallDir
        | some _ =>
            match remoteChallengeDir with
            | some r => Except.ok r.toPathStr
            | none =>
                Except.error (PyError.typeError
                  ("argument should be a str or an os.PathLike object " ++
                    "where __fspath__ returns a str, not <class " ++
                    sqStr ++ "NoneType" ++ sqStr ++ ">"))
      match remoteChallDirE with
      | Except.error e => Except.error e
      | Except.ok remoteChallDir =>
          Except.ok
            { addresses := addresses
              secret := secret
              services := services
              localChallDir := localChallDir
              remoteChallDir := remoteChallDir
              composePath := pathJoin remoteChallDir composeFilename
              sshConn := sshConn }

/-- `ChallengeHelper.__cmd_wrapper`: run the command locally through
`subprocess.run` (capturing output) when no session is configured,
otherwise through the remote session (encoding its textual streams). -/
def ChallengeHelper.cmdWrapper (h : ChallengeHelper) (env : Env)
    (realCmd : String) : ExecResult × List Action :=
  match h.sshConn with
  | none =>
      let cmdRes := env.subprocess realCmd
      (cmdRes, [Action.subprocessRun realCmd])
  | some conn =>
      let cmdRes := conn.run realCmd
      (⟨strEncode cmdRes.stdout, strEncode cmdRes.stderr, cmdRes.exited⟩,
        [Action.sshRun realCmd])

/-- The container-exec invocation string built by
`ChallengeHelper.__cmd_container_wrapper`. -/
def ChallengeHelper.containerCmd (h : ChallengeHelper) (serviceName : String)
    (cmd : String) : String :=
  "docker compose -f " ++ h.composePath ++ " exec " ++ serviceName ++
    " /bin/sh -c " ++ shlexQuote cmd

/-- `ChallengeHelper.__cmd_container_wrapper`: build the container-exec
invocation and dispatch it through `__cmd_wrapper`. -/
def ChallengeHelper.cmdContainerWrapper (h : ChallengeHelper) (env : Env)
    (serviceName : String) (cmd : String) : ExecResult × List Action :=
  h.cmdWrapper env (h.containerCmd serviceName cmd)

/-- The `cmd` argument of `run`: a single string or a list of strings
(the `isinstance(cmd, str)` test is the constructor tag). -/
inductive Cmd where
  | str (s : String)
  | list (l : List String)
deriving DecidableEq

/-- The unknown-service `ValueError` message. -/
def unknownServiceMsg (serviceName : String) : String :=
  "service " ++ sqStr ++ serviceName ++ sqStr ++ " cannot be found."

/-- Outcome of a `run` call: the Python return value or raised exception,
the trace of external actions, and the object state after the call. -/
structure RunOut where
  result : Except PyError ExecResult
  actions : List Action
  selfAfter : ChallengeHelper

/-- `ChallengeHelper.run`: reject unknown service names with `ValueError`;
pass a single string through, join a list with `" ; "`; dispatch the
container-exec invocation and return its (stdout, stderr, exit code). -/
def ChallengeHelper.run (h : ChallengeHelper) (env : Env)
    (serviceName : String) (cmd : Cmd) : RunOut :=
  if serviceName ∈ h.services then
    match cmd with
    | Cmd.str s =>
        let ra := h.cmdContainerWrapper env serviceName s
        ⟨Except.ok ra.1, ra.2, h⟩
    | Cmd.list l =>
        let ra := h.cmdContainerWrapper env serviceName
          (String.intercalate " ; " l)
        ⟨Except.ok ra.1, ra.2, h⟩
  else
    ⟨Except.error (PyError.valueError (unknownServiceMsg serviceName)), [], h⟩

/-- `ChallengeHelper.__get_container_file_wrapper`: copy the source path
out of the container to `/tmp/<basename>` with `docker compose cp`; raise
a bare `Exception` carrying the decoded stderr if the copy command exits
non-zero, otherwise return the temporary destination path. -/
def ChallengeHelper.getContainerFileWrapper (h : ChallengeHelper) (env : Env)
    (serviceName : String) (source : String) :
    Except PyError String × List Action :=
  let destFname := pathJoin "/tmp" (basename source)
  let copyCmd := "docker compose -f " ++ h.composePath ++ " cp " ++
    serviceName ++ ":" ++ source ++ " " ++ destFname
  let ca := h.cmdWrapper env copyCmd
  if ca.1.returncode ≠ 0 then
    (Except.error (PyError.exception
      ("failed to copy: " ++ ca.1.stderr.decode)), ca.2)
  else
    (Except.ok destFname, ca.2)

/-- `ChallengeHelper.__dir_checker_wrapper`: locally, `Path(path).is_dir()`;
remotely, run `file <path>` over the session and look for the substring
`"directory"` in its stdout. -/
def ChallengeHelper.dirCheckerWrapper (h : ChallengeHelper) (env : Env)
    (path : String) : Bool × List Action :=
  match h.sshConn with
  | none => (env.isDir path, [])
  | some conn =>
      let res := (conn.run ("file " ++ path)).stdout
      (strContains res "directory", [Action.sshRun ("file " ++ path)])

/-- `ChallengeHelper.__transfer_file_wrapper`: a local filesystem move, or
a download of the remote file over the session; returns `True`. -/
def ChallengeHelper.transferFileWrapper (h : ChallengeHelper)
    (source dest : String) : Bool × List Action :=
  match h.sshConn with
  | none => (true, [Action.move source dest])
  | some _ => (true, [Action.sshGet source dest])

/-- `ChallengeHelper.__transfer_folder_wrapper`: a local filesystem move;
or, over the session: tar the remote directory into `/tmp/<token_hex(8)>`,
download the tarball, remove the remote tarball and directory, extract
locally stripping one path component, move the extracted copy to `dest`,
and delete the local tarball; returns `True`. -/
def ChallengeHelper.transferFolderWrapper (h : ChallengeHelper) (env : Env)
    (source dest : String) : Bool × List Action :=
  match h.sshConn with
  | none => (true, [Action.move source dest])
  | some _ =>
      let folderTarname := pathJoin "/tmp" env.tokenHex8
      (true,
        [Action.sshRun ("tar -czf " ++ folderTarname ++ " " ++ source)] ++
          (h.transferFileWrapper folderTarname folderTarname).2 ++
          [Action.sshRun ("rm -rf " ++ folderTarname ++ " " ++ source),
            Action.sshLocal
              ("tar --strip-components=1 -C /tmp -xzf " ++ folderTarname),
            Action.move source dest,
            Action.osRemove folderTarname])

/-- Outcome of a `fetch` call: return value or raised exception, action
trace, and the object state after the call. -/
structure FetchOut where
  result : Except PyError Bool
  actions : List Action
  selfAfter : ChallengeHelper

/-- `ChallengeHelper.fetch`: reject unknown service names with
`ValueError`; copy the source out of the container; dispatch on the
directory check to the folder- or file-transfer wrapper. -/
def ChallengeHelper.fetch (h : ChallengeHelper) (env : Env)
    (serviceName : String) (source dest : String) : FetchOut :=
  if serviceName ∈ h.services then
    let ga := h.getContainerFileWrapper env serviceName source
    match ga.1 with
    | Except.error e => ⟨Except.error e, ga.2, h⟩
    | Except.ok containerFname =>
        let da := h.dirCheckerWrapper env containerFname
        if da.1 then
          let ta := h.transferFolderWrapper env containerFname dest
          ⟨Except.ok ta.1, ga.2 ++ da.2 ++ ta.2, h⟩
        else
          let ta := h.transferFileWrapper containerFname dest
          ⟨Except.ok ta.1, ga.2 ++ da.2 ++ ta.2, h⟩
  else
    ⟨Except.error (PyError.valueError (unknownServiceMsg serviceName)), [], h⟩

/-! Concrete fixtures used by witnesses and counterexamples. -/

/-- An environment whose local subprocess echoes the invocation back on
stdout and exits 0. -/
def envEcho : Env :=
  ⟨fun s => ⟨⟨s⟩, ⟨""⟩, 0⟩, fun _ => false, "00112233445566aa"⟩

/-- An environment whose local subprocess fails with exit code 1 and
stderr `boom`. -/
def envCopyFail : Env :=
  ⟨fun _ => ⟨⟨""⟩, ⟨"boom"⟩, 1⟩, fun _ => false, "00112233445566aa"⟩

/-- An environment whose local subprocess succeeds silently. -/
def envCopyOk : Env :=
  ⟨fun _ => ⟨⟨""⟩, ⟨""⟩, 0⟩, fun _ => false, "00112233445566aa"⟩

/-- An environment whose local subprocess exits 7 with some output. -/
def envExit7 : Env :=
  ⟨fun _ => ⟨⟨"out"⟩, ⟨"err"⟩, 7⟩, fun _ => true, "00112233445566aa"⟩

/-- A single-host helper knowing one service, `nginx`. -/
def h0 : ChallengeHelper :=
  ⟨["127.0.0.1:8080"], "Secret2023", ["nginx"], "/chall", "/chall",
    "/chall/docker-compose.yml", none⟩

/-- A filesystem whose Compose file parses to the single service `nginx`. -/
def fs0 : FileSys :=
  ⟨fun _ => Except.ok ["nginx"]⟩

/-- C8: `Verdict.OK(m).is_ok()` holds, `Verdict.FAIL(m).is_ok()` and
`Verdict.ERROR(m).is_ok()` do not, every factory stores exactly the
supplied message, and `Verdict.OK()` without argument has message `""`. -/
theorem verdict_factories_ok (m : String) :
    (Verdict.OK (some m)).is_ok = true ∧
    (Verdict.FAIL m).is_ok = false ∧
    (Verdict.ERROR m).is_ok = false ∧
    (Verdict.OK (some m)).message = m ∧
    (Verdict.FAIL m).message = m ∧
    (Verdict.ERROR m).message = m ∧
    (Verdict.OK none).message = "" := by
  refine ⟨rfl, ?_, ?_, rfl, rfl, rfl, rfl⟩ <;> rfl

/-- C5: constructing a helper with a `Path` local directory and no SSH
session succeeds (whenever the Compose file parses) with the remote
challenge directory equal to the local one, and with the Compose path —
the one every later `run`/`fetch` invocation embeds in its commands —
equal to that shared directory joined with the compose filename. -/
theorem init_no_ssh_single_host (fs : FileSys) (addresses : List String)
    (secret : String) (localDir : String) (remoteDir : Option StrOrPath)
    (composeFilename : String) (services : List String)
    (hfs : fs.composeServices (pathJoin localDir composeFilename) =
      Except.ok services) :
    ∃ h : ChallengeHelper,
      ChallengeHelper.init fs addresses secret (StrOrPath.path localDir)
        remoteDir composeFilename none = Except.ok h ∧
      h.remoteChallDir = h.localChallDir ∧
      h.localChallDir = localDir ∧
      h.composePath = pathJoin h.localChallDir composeFilename := by
  refine ⟨⟨addresses, secret, services, localDir, localDir,
    pathJoin localDir composeFilename, none⟩, ?_, rfl, rfl, rfl⟩
  simp [ChallengeHelper.init, StrOrPath.joinpath, StrOrPath.toPathStr, hfs]

/-- C5 witness: a concrete single-host construction. -/
theorem init_no_ssh_single_host_witness :
    ∃ h : ChallengeHelper,
      ChallengeHelper.init fs0 ["127.0.0.1:8080"] "Secret2023"
        (StrOrPath.path "/chall") none "docker-compose.yml" none =
        Except.ok h ∧
      h.remoteChallDir = h.localChallDir ∧
      h.localChallDir = "/chall" ∧
      h.composePath = pathJoin h.localChallDir "docker-compose.yml" :=
  init_no_ssh_single_host fs0 ["127.0.0.1:8080"] "Secret2023" "/chall"
    none "docker-compose.yml" ["nginx"] rfl

/-- C9: `run` and `fetch` leave the helper's state — the service
registry, the execution-target configuration and both challenge-directory
paths — exactly as construction set it, in success and error outcomes
alike (the translated method bodies contain no attribute assignment). -/
theorem run_fetch_preserve_state (h : ChallengeHelper) (env : Env)
    (name : String) (cmd : Cmd) (name2 src dest : String) :
    (h.run env name cmd).selfAfter = h ∧
    (h.fetch env name2 src dest).selfAfter = h := by
  constructor
  · unfold ChallengeHelper.run
    by_cases hm : name ∈ h.services
    · simp only [if_pos hm]
      cases cmd <;> rfl
    · simp only [if_neg hm]
  · unfold ChallengeHelper.fetch
    by_cases hm : name2 ∈ h.services
    · simp only [if_pos hm]
      rcases hg : (h.getContainerFileWrapper env name2 src).1 with e | f
      · simp only [hg]
      · simp only [hg]
        by_cases hd : (h.dirCheckerWrapper env f).1
        · simp only [if_pos hd]
        · simp only [if_neg hd]
    · simp only [if_neg hm]

/-- C10: constructing a helper whose `local_challenge_dir` is a plain
string fails with an `AttributeError` (`str` has no `joinpath`) whatever
the filesystem holds — so before the Compose file is read — and every
successful construction received a `Path`-typed local directory. -/
theorem init_str_local_dir_attribute_error :
    (∀ (fs : FileSys) (addresses : List String) (secret s : String)
        (remoteDir : Option StrOrPath) (composeFilename : String)
        (sshConn : Option SshConn),
      ChallengeHelper.init fs addresses secret (StrOrPath.str s) remoteDir
          composeFilename sshConn =
        Except.error (PyError.attributeError
          (sqStr ++ "str" ++ sqStr ++ " object has no attribute " ++
            sqStr ++ "joinpath" ++ sqStr))) ∧
    (∀ (fs : FileSys) (addresses : List String) (secret : String)
        (inp : StrOrPath) (remoteDir : Option StrOrPath)
        (composeFilename : String) (sshConn : Option SshConn)
        (h : ChallengeHelper),
      ChallengeHelper.init fs addresses secret inp remoteDir
          composeFilename sshConn = Except.ok h →
      ∃ p, inp = StrOrPath.path p) := by
  constructor
  · intro fs addresses secret s remoteDir composeFilename sshConn
    rfl
  · intro fs addresses secret inp remoteDir composeFilename sshConn h hok
    cases inp with
    | str s => simp [ChallengeHelper.init, StrOrPath.joinpath] at hok
    | path p => exact ⟨p, rfl⟩

/-- C10 witness: the string form fails concretely; a `Path` form built
the helper. -/
theorem init_str_local_dir_attribute_error_witness :
    (ChallengeHelper.init fs0 [] "" (StrOrPath.str "/chall") none
        "docker-compose.yml" none =
      Except.error (PyError.attributeError
        (sqStr ++ "str" ++ sqStr ++ " object has no attribute " ++
          sqStr ++ "joinpath" ++ sqStr))) ∧
    ∃ p, StrOrPath.path "/chall" = StrOrPath.path p :=
  ⟨init_str_local_dir_attribute_error.1 fs0 [] "" "/chall" none
      "docker-compose.yml" none,
    init_str_local_dir_attribute_error.2 fs0 [] "" (StrOrPath.path "/chall")
      none "docker-compose.yml" none
      ⟨[], "", ["nginx"], "/chall", "/chall",
        "/chall/docker-compose.yml", none⟩ (by rfl)⟩

deriving instance DecidableEq for Except

/-- Any error `__get_container_file_wrapper` raises is the bare
`Exception` of a failed copy. -/
lemma getContainerFileWrapper_error_shape (h : ChallengeHelper) (env : Env)
    (serviceName source : String) (e : PyError)
    (he : (h.getContainerFileWrapper env serviceName source).1 =
      Except.error e) :
    ∃ msg, e = PyError.exception msg := by
  simp only [ChallengeHelper.getContainerFileWrapper] at he
  split at he
  · exact ⟨_, (Except.error.injEq _ _).mp he.symm⟩
  · exact absurd he (by simp)

/-- C1: calling `run` or `fetch` with a service name outside the loaded
services mapping raises the unknown-service `ValueError` with an empty
action trace (nothing was executed or transferred); with a name inside
the mapping, `run` returns a value and `fetch` never raises that
`ValueError`. -/
theorem run_fetch_unknown_service (h : ChallengeHelper) (env : Env)
    (name : String) (cmd : Cmd) (src dest : String) :
    (name ∉ h.services →
      (h.run env name cmd).result =
        Except.error (PyError.valueError (unknownServiceMsg name)) ∧
      (h.run env name cmd).actions = [] ∧
      (h.fetch env name src dest).result =
        Except.error (PyError.valueError (unknownServiceMsg name)) ∧
      (h.fetch env name src dest).actions = []) ∧
    (name ∈ h.services →
      (∃ r, (h.run env name cmd).result = Except.ok r) ∧
      (∀ m, (h.fetch env name src dest).result ≠
        Except.error (PyError.valueError m))) := by
  constructor
  · intro hm
    refine ⟨?_, ?_, ?_, ?_⟩ <;>
      simp [ChallengeHelper.run, ChallengeHelper.fetch, hm]
  · intro hm
    constructor
    · unfold ChallengeHelper.run
      simp only [if_pos hm]
      cases cmd <;> exact ⟨_, rfl⟩
    · intro m
      unfold ChallengeHelper.fetch
      simp only [if_pos hm]
      rcases hg : (h.getContainerFileWrapper env name src).1 with e | f
      · simp only [hg]
        obtain ⟨msg, rfl⟩ :=
          getContainerFileWrapper_error_shape h env name src e hg
        simp
      · simp only [hg]
        by_cases hd : (h.dirCheckerWrapper env f).1
        · simp only [if_pos hd]; simp
        · simp only [if_neg hd]; simp

/-- C1 witness: concretely, the unknown name `redis` is rejected by both
operations with no action performed, while the known name `nginx` is
accepted by both. -/
theorem run_fetch_unknown_service_witness :
    ((h0.run envEcho "redis" (Cmd.str "pwd")).result =
        Except.error (PyError.valueError (unknownServiceMsg "redis")) ∧
      (h0.run envEcho "redis" (Cmd.str "pwd")).actions = [] ∧
      (h0.fetch envEcho "redis" "/etc/passwd" "/out").result =
        Except.error (PyError.valueError (unknownServiceMsg "redis")) ∧
      (h0.fetch envEcho "redis" "/etc/passwd" "/out").actions = []) ∧
    ((∃ r, (h0.run envEcho "nginx" (Cmd.str "pwd")).result = Except.ok r) ∧
      (∀ m, (h0.fetch envEcho "nginx" "/etc/passwd" "/out").result ≠
        Except.error (PyError.valueError m))) :=
  ⟨(run_fetch_unknown_service h0 envEcho "redis" (Cmd.str "pwd")
      "/etc/passwd" "/out").1 (by decide),
    (run_fetch_unknown_service h0 envEcho "nginx" (Cmd.str "pwd")
      "/etc/passwd" "/out").2 (by decide)⟩

/-- C2: for a known service, `run` always returns the (stdout bytes,
stderr bytes, exit code) triple produced by the configured execution
target — local subprocess or remote session — and never raises, whatever
exit code (zero or not) that target reports; the code is handed back in
the triple. -/
theorem run_returns_triple (h : ChallengeHelper) (env : Env) (name : String)
    (cmd : Cmd) (hmem : name ∈ h.services) :
    ∃ s : String,
      (h.run env name cmd).result = Except.ok (h.cmdWrapper env s).1 ∧
      (h.sshConn = none → (h.cmdWrapper env s).1 = env.subprocess s) ∧
      (∀ conn, h.sshConn = some conn →
        (h.cmdWrapper env s).1 =
          ⟨strEncode (conn.run s).stdout, strEncode (conn.run s).stderr,
            (conn.run s).exited⟩) := by
  have hcw : ∀ s : String,
      (h.sshConn = none → (h.cmdWrapper env s).1 = env.subprocess s) ∧
      (∀ conn, h.sshConn = some conn →
        (h.cmdWrapper env s).1 =
          ⟨strEncode (conn.run s).stdout, strEncode (conn.run s).stderr,
            (conn.run s).exited⟩) := by
    intro s
    constructor
    · intro hn; simp [ChallengeHelper.cmdWrapper, hn]
    · intro conn hc; simp [ChallengeHelper.cmdWrapper, hc]
  cases cmd with
  | str s =>
      refine ⟨h.containerCmd name s, ?_, (hcw _).1, (hcw _).2⟩
      simp [ChallengeHelper.run, hmem, ChallengeHelper.cmdContainerWrapper]
  | list l =>
      refine ⟨h.containerCmd name (String.intercalate " ; " l), ?_,
        (hcw _).1, (hcw _).2⟩
      simp [ChallengeHelper.run, hmem, ChallengeHelper.cmdContainerWrapper]

/-- C2 witness: a concrete local run whose command exits 7 still returns
the triple. -/
theorem run_returns_triple_witness :
    ∃ s : String,
      (h0.run envExit7 "nginx" (Cmd.str "pwd")).result =
        Except.ok (h0.cmdWrapper envExit7 s).1 ∧
      (h0.sshConn = none →
        (h0.cmdWrapper envExit7 s).1 = envExit7.subprocess s) ∧
      (∀ conn, h0.sshConn = some conn →
        (h0.cmdWrapper envExit7 s).1 =
          ⟨strEncode (conn.run s).stdout, strEncode (conn.run s).stderr,
            (conn.run s).exited⟩) :=
  run_returns_triple h0 envExit7 "nginx" (Cmd.str "pwd") (by decide)

/-- C3 counterexample: with the echoing local target, running the list
`["a", "b"]` and running the single string `"a;b"` (the list joined with
a bare `;`) give different results — the source joins with `" ; "`, so
the dispatched invocations differ. -/
theorem run_list_vs_bare_semicolon_differ :
    (h0.run envEcho "nginx" (Cmd.list ["a", "b"])).result ≠
      (h0.run envEcho "nginx" (Cmd.str "a;b")).result := by
  decide

/-- C3 (amended): `run` on a list of commands behaves identically to
`run` on the single string obtained by joining them with `" ; "` — a
semicolon padded with spaces — which still executes every command
regardless of earlier exit statuses and reports the last exit code,
per shell `;` semantics. -/
theorem run_list_joins_with_spaced_semicolon (h : ChallengeHelper)
    (env : Env) (name : String) (l : List String) :
    h.run env name (Cmd.list l) =
      h.run env name (Cmd.str (String.intercalate " ; " l)) := by
  unfold ChallengeHelper.run
  rfl

/-- C4: at a failing copy-out (`docker compose cp` exits 1 with stderr
`boom`), `fetch` raises the *bare* `Exception` class carrying the stderr
text — not the `IOError` its own docstring and the spec promise — and no
transfer action reaches `dest` (the trace holds only the copy attempt);
when the copy succeeds, `fetch` returns `True`. -/
theorem fetch_copy_failure_raises_bare_exception :
    (h0.fetch envCopyFail "nginx" "/etc/passwd" "/out").result =
      Except.error (PyError.exception "failed to copy: boom") ∧
    (h0.fetch envCopyFail "nginx" "/etc/passwd" "/out").actions =
      [Action.subprocessRun
        ("docker compose -f /chall/docker-compose.yml cp " ++
          "nginx:/etc/passwd /tmp/passwd")] ∧
    (∀ m, (h0.fetch envCopyFail "nginx" "/etc/passwd" "/out").result ≠
      Except.error (PyError.ioError m)) ∧
    (h0.fetch envCopyOk "nginx" "/etc/passwd" "/out").result =
      Except.ok true := by
  have hres : (h0.fetch envCopyFail "nginx" "/etc/passwd" "/out").result =
      Except.error (PyError.exception "failed to copy: boom") := by decide
  refine ⟨hres, by decide, ?_, by decide⟩
  intro m hm
  rw [hres] at hm
  simp at hm

/-- The double quote is not the single quote. -/
lemma dq_ne_sq : dqChar ≠ sqChar := by decide

/-- The single quote is not the double quote. -/
lemma sq_ne_dq : sqChar ≠ dqChar := by decide

/-- A `shlex`-safe character is not the single quote. -/
lemma safe_ne_sq (c : Char) (h : shlexSafeChar c = true) : ¬c = sqChar := by
  intro he
  subst he
  exact absurd h (by decide)

/-- A `shlex`-safe character is not the double quote. -/
lemma safe_ne_dq (c : Char) (h : shlexSafeChar c = true) : ¬c = dqChar := by
  intro he
  subst he
  exact absurd h (by decide)

/-- Reading the escaped body of a `shlex.quote` string from inside its
opening single quote recovers the original characters. -/
lemma unq_insq_quoteRep (l : List Char) :
    unq QMode.insq (quoteRep l ++ [sqChar]) = some l := by
  induction l with
  | nil => simp [quoteRep, unq]
  | cons c t ih =>
      by_cases hc : c = sqChar
      · subst hc
        simp [quoteRep, quoteChar, unq, dq_ne_sq, sq_ne_dq, ih,
          List.append_assoc]
      · simp [quoteRep, quoteChar, hc, unq, ih, safe_ne_sq,
          List.append_assoc]

/-- A word of `shlex`-safe characters reads back as itself. -/
lemma unq_norm_safe (l : List Char) :
    (∀ c ∈ l, shlexSafeChar c = true) → unq QMode.norm l = some l := by
  induction l with
  | nil => intro _; simp [unq]
  | cons c t ih =>
      intro hall
      have hc : shlexSafeChar c = true := hall c (by simp)
      have ht : ∀ x ∈ t, shlexSafeChar x = true := fun x hx =>
        hall x (by simp [hx])
      simp [unq, safe_ne_sq c hc, safe_ne_dq c hc, hc, ih ht]

/-- A `String` is its character data. -/
lemma stringMk_data (s : String) : String.mk s.data = s := rfl

/-- `shlex.quote` round-trips: lexing the quoted word back as a single
shell word yields exactly the original text — the command is passed
verbatim as one argument. -/
lemma shlexQuote_roundtrip (s : String) :
    shUnquote (shlexQuote s) = some s := by
  unfold shlexQuote
  by_cases hnil : s.data = []
  · rw [if_pos hnil]
    have : s = String.mk [] := by rw [← stringMk_data s, hnil]
    rw [this]
    simp [shUnquote, unq]
  · rw [if_neg hnil]
    by_cases hall : s.data.all shlexSafeChar
    · rw [if_pos hall]
      unfold shUnquote
      rw [unq_norm_safe s.data (by simpa using hall)]
      simp [stringMk_data]
    · rw [if_neg hall]
      unfold shUnquote
      show Option.map String.mk
        (unq QMode.norm (sqChar :: (quoteRep s.data ++ [sqChar]))) = some s
      rw [show unq QMode.norm (sqChar :: (quoteRep s.data ++ [sqChar])) =
          unq QMode.insq (quoteRep s.data ++ [sqChar]) by simp [unq]]
      rw [unq_insq_quoteRep s.data]
      simp [stringMk_data]

/-- C6: for a known service, `run` on a single command string builds
exactly `docker compose -f <compose-path> exec <service> /bin/sh -c
<quoted-command>`, dispatches that one string to the configured target
(one local subprocess spawn, or one remote command), returns that
target's triple, and the quoting is faithful: the quoted word reads back
verbatim as the original command. -/
theorem run_constructs_quoted_invocation (h : ChallengeHelper) (env : Env)
    (name c : String) (hmem : name ∈ h.services) :
    (h.run env name (Cmd.str c)).result =
      Except.ok (h.cmdWrapper env (h.containerCmd name c)).1 ∧
    h.containerCmd name c =
      "docker compose -f " ++ h.composePath ++ " exec " ++ name ++
        " /bin/sh -c " ++ shlexQuote c ∧
    (h.sshConn = none →
      (h.run env name (Cmd.str c)).actions =
        [Action.subprocessRun (h.containerCmd name c)]) ∧
    (∀ conn, h.sshConn = some conn →
      (h.run env name (Cmd.str c)).actions =
        [Action.sshRun (h.containerCmd name c)]) ∧
    shUnquote (shlexQuote c) = some c := by
  refine ⟨?_, rfl, ?_, ?_, shlexQuote_roundtrip c⟩
  · simp [ChallengeHelper.run, hmem, ChallengeHelper.cmdContainerWrapper]
  · intro hn
    simp [ChallengeHelper.run, hmem, ChallengeHelper.cmdContainerWrapper,
      ChallengeHelper.cmdWrapper, hn]
  · intro conn hc
    simp [ChallengeHelper.run, hmem, ChallengeHelper.cmdContainerWrapper,
      ChallengeHelper.cmdWrapper, hc]

/-- C6 witness: a concrete local run of `cd /etc; pwd` against `nginx`. -/
theorem run_constructs_quoted_invocation_witness :
    (h0.run envEcho "nginx" (Cmd.str "cd /etc; pwd")).result =
      Except.ok (h0.cmdWrapper envEcho
        (h0.containerCmd "nginx" "cd /etc; pwd")).1 ∧
    h0.containerCmd "nginx" "cd /etc; pwd" =
      "docker compose -f " ++ h0.composePath ++ " exec " ++ "nginx" ++
        " /bin/sh -c " ++ shlexQuote "cd /etc; pwd" ∧
    (h0.sshConn = none →
      (h0.run envEcho "nginx" (Cmd.str "cd /etc; pwd")).actions =
        [Action.subprocessRun (h0.containerCmd "nginx" "cd /etc; pwd")]) ∧
    (∀ conn, h0.sshConn = some conn →
      (h0.run envEcho "nginx" (Cmd.str "cd /etc; pwd")).actions =
        [Action.sshRun (h0.containerCmd "nginx" "cd /etc; pwd")]) ∧
    shUnquote (shlexQuote "cd /etc; pwd") = some "cd /etc; pwd" :=
  run_constructs_quoted_invocation h0 envEcho "nginx" "cd /etc; pwd"
    (by decide)

/-- C7: after a successful copy-out, the retrieved path is classified a
directory exactly by the local filesystem check when no session is
configured, and exactly by `"directory"` occurring in the output of the
remote `file <path>` command otherwise; `fetch` takes the folder-transfer
branch precisely on paths so classified, and the file-transfer branch on
the rest. -/
theorem fetch_directory_dispatch (h : ChallengeHelper) (env : Env)
    (name src dest p : String) (hmem : name ∈ h.services)
    (hcopy : (h.getContainerFileWrapper env name src).1 = Except.ok p) :
    (h.sshConn = none → (h.dirCheckerWrapper env p).1 = env.isDir p) ∧
    (∀ conn, h.sshConn = some conn →
      ((h.dirCheckerWrapper env p).1 = true ↔
        strContains (conn.run ("file " ++ p)).stdout "directory" = true)) ∧
    ((h.dirCheckerWrapper env p).1 = true →
      h.fetch env name src dest =
        ⟨Except.ok (h.transferFolderWrapper env p dest).1,
          (h.getContainerFileWrapper env name src).2 ++
            (h.dirCheckerWrapper env p).2 ++
            (h.transferFolderWrapper env p dest).2, h⟩) ∧
    ((h.dirCheckerWrapper env p).1 = false →
      h.fetch env name src dest =
        ⟨Except.ok (h.transferFileWrapper p dest).1,
          (h.getContainerFileWrapper env name src).2 ++
            (h.dirCheckerWrapper env p).2 ++
            (h.transferFileWrapper p dest).2, h⟩) := by
  refine ⟨?_, ?_, ?_, ?_⟩
  · intro hn
    simp [ChallengeHelper.dirCheckerWrapper, hn]
  · intro conn hc
    simp [ChallengeHelper.dirCheckerWrapper, hc]
  · intro hd
    unfold ChallengeHelper.fetch
    simp only [if_pos hmem, hcopy, hd, if_true]
  · intro hd
    unfold ChallengeHelper.fetch
    simp only [if_pos hmem, hcopy, hd]
    simp

/-- C7 witness: a concrete successful copy-out followed by the (file)
dispatch. -/
theorem fetch_directory_dispatch_witness :
    (h0.sshConn = none →
      (h0.dirCheckerWrapper envCopyOk "/tmp/passwd").1 =
        envCopyOk.isDir "/tmp/passwd") ∧
    (∀ conn, h0.sshConn = some conn →
      ((h0.dirCheckerWrapper envCopyOk "/tmp/passwd").1 = true ↔
        strContains (conn.run ("file " ++ "/tmp/passwd")).stdout
          "directory" = true)) ∧
    ((h0.dirCheckerWrapper envCopyOk "/tmp/passwd").1 = true →
      h0.fetch envCopyOk "nginx" "/etc/passwd" "/out" =
        ⟨Except.ok
            (h0.transferFolderWrapper envCopyOk "/tmp/passwd" "/out").1,
          (h0.getContainerFileWrapper envCopyOk "nginx" "/etc/passwd").2 ++
            (h0.dirCheckerWrapper envCopyOk "/tmp/passwd").2 ++
            (h0.transferFolderWrapper envCopyOk "/tmp/passwd" "/out").2,
          h0⟩) ∧
    ((h0.dirCheckerWrapper envCopyOk "/tmp/passwd").1 = false →
      h0.fetch envCopyOk "nginx" "/etc/passwd" "/out" =
        ⟨Except.ok (h0.transferFileWrapper "/tmp/passwd" "/out").1,
          (h0.getContainerFileWrapper envCopyOk "nginx" "/etc/passwd").2 ++
            (h0.dirCheckerWrapper envCopyOk "/tmp/passwd").2 ++
            (h0.transferFileWrapper "/tmp/passwd" "/out").2, h0⟩) :=
  fetch_directory_dispatch h0 envCopyOk "nginx" "/etc/passwd" "/out"
    "/tmp/passwd" (by decide) (by decide)

end Fulgens
